import Mathlib

/-!
Verification development for the blues/geofeeds radiation geofeed service.

The embedding follows the Go sources:
  * `src/radnote.go` — the device-event store update (`httpRadnoteHandler`,
    POST path), the geofence evaluator (`locationInWarningRegion`) and the
    great-circle distance function (`metersApart`);
  * `src/unnamed/part_001` — the radiation query handler
    (`httpRadiationHandler`) and the region aggregator (`generateJsonFeed`);
  * `src/unnamed/part_002` — the `generateJsonFeed` variant reading the dose
    rate from the stored body (`e.Body.Usv`), which is the field layout of
    `src/radnote.go`'s record type.

Go `float64` values are modelled as real numbers; Go's `int64` timestamps as
`Int`; the in-memory map `map[string]RadnoteEvent` as an association list
keyed by device UID (Go map iteration order is unspecified, which claim C8
addresses via permutations).  File persistence (`os.WriteFile`) is modelled
by a boolean `persistFails` input telling whether the write would fail.
-/

open Real

/-- The body of a Radnote-generated event (`RadnoteEventBody` in
`src/radnote.go`). -/
structure RadnoteEventBody where
  Cpm : ℝ
  CpmCount : Int
  CpmCountSecs : Int
  Sensor : String
  TemperatureC : ℝ
  Voltage : ℝ
  Usv : ℝ

/-- The zero value of `RadnoteEventBody` (`RadnoteEventBody{}` in Go). -/
def RadnoteEventBody.zero : RadnoteEventBody :=
  { Cpm := 0, CpmCount := 0, CpmCountSecs := 0, Sensor := ""
  , TemperatureC := 0, Voltage := 0, Usv := 0 }

/-- The fields of `note.Event` that the service reads: device identifier,
logical timestamp (`When`), notefile tag, best-known location and the decoded
radiation payload (`Body`, `nil` modelled as `none`). -/
structure NoteEvent where
  DeviceUID : String
  When : Int
  NotefileID : String
  BestLat : ℝ
  BestLon : ℝ
  Body : Option RadnoteEventBody

/-- An event with a Radnote-specific body type added (`RadnoteEvent` in
`src/radnote.go`). -/
structure RadnoteEvent where
  Event : NoteEvent
  Body : RadnoteEventBody

/-- The in-memory device-record mapping `map[string]RadnoteEvent`, as an
association list from device UID to record. -/
abbrev Store := List (String × RadnoteEvent)

/-- Map lookup: `currentEvent, exists := radnoteEvents[event.DeviceUID]`. -/
def lookupStore : Store → String → Option RadnoteEvent
  | [], _ => none
  | (k, v) :: rest, d => if k = d then some v else lookupStore rest d

/-- Map update: `radnoteEvents[event.DeviceUID] = radevent` — replaces an
existing binding for the key, otherwise adds one. -/
def insertStore : Store → String → RadnoteEvent → Store
  | [], d, v => [(d, v)]
  | (k, v') :: rest, d, v =>
      if k = d then (d, v) :: rest else (k, v') :: insertStore rest d v

/-- Construction of the stored record from an incoming event
(`src/radnote.go` lines 119–125): the event is copied with its untyped body
cleared (`radevent.Event.Body = nil`), and the payload is re-decoded into the
typed body via a JSON round-trip (identity on the decoded fields); a `nil`
payload leaves the zero-valued body. -/
def mkStoredEvent (event : NoteEvent) : RadnoteEvent :=
  { Event := { event with Body := none }
  , Body := match event.Body with
      | some b => b
      | none => RadnoteEventBody.zero }

/-- The store update performed by the POST path of `httpRadnoteHandler`
(`src/radnote.go` lines 109–131) on one decoded event: events not tagged
`"_air.qo"` are ignored; otherwise the record is replaced when the device is
new or the incoming `When` is at least the stored one. -/
def processEvent (store : Store) (event : NoteEvent) : Store :=
  if event.NotefileID ≠ "_air.qo" then store
  else
    match lookupStore store event.DeviceUID with
    | none => insertStore store event.DeviceUID (mkStoredEvent event)
    | some currentEvent =>
        if event.When ≥ currentEvent.Event.When then
          insertStore store event.DeviceUID (mkStoredEvent event)
        else store

/-- Processing a sequence of decoded events against the initially empty
store. -/
def processAll (events : List NoteEvent) : Store :=
  events.foldl processEvent []

/-- The `When` timestamps of the radiation-kind events for one device within
a sequence of events. -/
def deviceWhens (events : List NoteEvent) (d : String) : List Int :=
  (events.filter (fun e => e.NotefileID == "_air.qo" && e.DeviceUID == d)).map
    (fun e => e.When)

section StoreLemmas

theorem lookupStore_insertStore_self (s : Store) (d : String) (v : RadnoteEvent) :
    lookupStore (insertStore s d v) d = some v := by
  induction s with
  | nil => simp [insertStore, lookupStore]
  | cons kv rest ih =>
      obtain ⟨k, v'⟩ := kv
      by_cases h : k = d
      · simp [insertStore, lookupStore, h]
      · simp [insertStore, lookupStore, h, ih]

theorem lookupStore_insertStore_other (s : Store) (d d' : String)
    (v : RadnoteEvent) (h : d ≠ d') :
    lookupStore (insertStore s d v) d' = lookupStore s d' := by
  induction s with
  | nil => simp [insertStore, lookupStore, h]
  | cons kv rest ih =>
      obtain ⟨k, v'⟩ := kv
      by_cases hk : k = d
      · subst hk
        simp [insertStore, lookupStore, h]
      · simp [insertStore, lookupStore, hk, ih]

end StoreLemmas

/-- The configuration values read by the geofence evaluator
(`config.RadnoteWarningLevelUsv` and `config.RadnoteWarningRegionMeters` in
`src/radnote.go`): the alert dose-rate threshold and the alert-region
radius. -/
structure Config where
  RadnoteWarningLevelUsv : ℝ
  RadnoteWarningRegionMeters : ℝ

/-- `metersApart` (`src/radnote.go` lines 169–182): great-circle distance in
meters between two points given in degrees, via the chord length between the
two unit vectors `(cos lon1' * cos lat1', sin lon1' * cos lat1', sin lat1')`
and `(cos lat2', 0, sin lat2')` obtained after rotating the second point onto
the zero meridian. -/
noncomputable def metersApart (lat1 lon1 lat2 lon2 : ℝ) : ℝ :=
  let R : ℝ := 6371
  let degreesToRadians : ℝ := 3.1415926536 / 180
  let lon1' : ℝ := (lon1 - lon2) * degreesToRadians
  let lat1' : ℝ := lat1 * degreesToRadians
  let lat2' : ℝ := lat2 * degreesToRadians
  let dz : ℝ := Real.sin lat1' - Real.sin lat2'
  let dx : ℝ := Real.cos lon1' * Real.cos lat1' - Real.cos lat2'
  let dy : ℝ := Real.sin lon1' * Real.cos lat1'
  1000 * (Real.arcsin (Real.sqrt |dx * dx + dy * dy + dz * dz| / 2) * 2 * R)

/-- The per-record test of `locationInWarningRegion` (`src/radnote.go` lines
147–155): dose rate at or above the configured threshold, location not the
`(0,0)` sentinel, and distance to the query point within the configured
region radius. -/
noncomputable def recordTriggers (cfg : Config) (e : RadnoteEvent)
    (lat lon : ℝ) : Bool :=
  if e.Body.Usv ≥ cfg.RadnoteWarningLevelUsv then
    if e.Event.BestLat ≠ 0 ∨ e.Event.BestLon ≠ 0 then
      if metersApart e.Event.BestLat e.Event.BestLon lat lon
          ≤ cfg.RadnoteWarningRegionMeters then true
      else false
    else false
  else false

/-- `locationInWarningRegion` (`src/radnote.go` lines 140–158): scans the
device records and returns `true` on the first record passing the nested
tests, `false` when none does. -/
noncomputable def locationInWarningRegion (cfg : Config) (store : Store)
    (lat lon : ℝ) : Bool :=
  store.any (fun kv => recordTriggers cfg kv.2 lat lon)

/-- The qualifying condition of C2, as a proposition. -/
def qualifies (cfg : Config) (e : RadnoteEvent) (lat lon : ℝ) : Prop :=
  e.Body.Usv ≥ cfg.RadnoteWarningLevelUsv ∧
    ¬(e.Event.BestLat = 0 ∧ e.Event.BestLon = 0) ∧
    metersApart e.Event.BestLat e.Event.BestLon lat lon
      ≤ cfg.RadnoteWarningRegionMeters

/-- The loop accumulator of `generateJsonFeed` (`src/unnamed/part_001` lines
184–187): running count, min, max and sum of dose rate. -/
structure RegionAcc where
  count : ℝ
  mn : ℝ
  mx : ℝ
  sum : ℝ

/-- One iteration of the `generateJsonFeed` scan (`src/unnamed/part_001`
lines 189–206, dose rate read from the stored body as in
`src/unnamed/part_002` lines 183–200): records with the `(0,0)` sentinel
location are skipped; an in-radius record updates min/max (seeded from the
first included record) and accumulates sum and count. -/
noncomputable def regionStep (lat lon radiusMeters : ℝ) (acc : RegionAcc)
    (kv : String × RadnoteEvent) : RegionAcc :=
  let e := kv.2
  if e.Event.BestLat ≠ 0 ∨ e.Event.BestLon ≠ 0 then
    if metersApart e.Event.BestLat e.Event.BestLon lat lon ≤ radiusMeters then
      let mn1 := if acc.count = 0 then e.Body.Usv else acc.mn
      let mx1 := if acc.count = 0 then e.Body.Usv else acc.mx
      let mn2 := if e.Body.Usv < mn1 then e.Body.Usv else mn1
      let mx2 := if e.Body.Usv > mx1 then e.Body.Usv else mx1
      { count := acc.count + 1, mn := mn2, mx := mx2
      , sum := acc.sum + e.Body.Usv }
    else acc
  else acc

/-- The plain aggregate result record built by `generateJsonFeed`
(`src/unnamed/part_001` lines 222–230): query parameters, effective radius,
and count/min/max/average dose rate. -/
structure RegionResult where
  lat : ℝ
  lon : ℝ
  radius_meters : ℝ
  count : ℝ
  usv_min : ℝ
  usv_max : ℝ
  usv_avg : ℝ

/-- `generateJsonFeed` (`src/unnamed/part_001` lines 176–230), up to the
construction of the aggregate record: a zero radius is replaced by the
small default 10, the store is scanned with `regionStep`, and the average
is `sum / count` when `count > 0` and `0` otherwise. -/
noncomputable def generateJsonFeed (store : Store)
    (lat lon radiusMeters0 : ℝ) : RegionResult :=
  let radiusMeters := if radiusMeters0 = 0 then 10 else radiusMeters0
  let acc := store.foldl (regionStep lat lon radiusMeters) ⟨0, 0, 0, 0⟩
  let avg := if acc.count > 0 then acc.sum / acc.count else 0
  { lat := lat, lon := lon, radius_meters := radiusMeters
  , count := acc.count, usv_min := acc.mn, usv_max := acc.mx
  , usv_avg := avg }

/-- The records of a store that the region aggregator includes: located (not
the `(0,0)` sentinel) and within the query radius. -/
noncomputable def includedRecords (store : Store)
    (lat lon radiusMeters : ℝ) : Store :=
  store.filter (fun kv =>
    decide ((kv.2.Event.BestLat ≠ 0 ∨ kv.2.Event.BestLon ≠ 0) ∧
      metersApart kv.2.Event.BestLat kv.2.Event.BestLon lat lon
        ≤ radiusMeters))

/-- The dose rates of the included records. -/
noncomputable def includedUsvs (store : Store)
    (lat lon radiusMeters : ℝ) : List ℝ :=
  (includedRecords store lat lon radiusMeters).map (fun kv => kv.2.Body.Usv)

/-- Outcome status of the ingestion (POST) path of `httpRadnoteHandler`. -/
inductive PostStatus
  | ok
  | internalServerError
deriving DecidableEq

/-- Observable outcome of the ingestion path: HTTP status, resulting store,
whether a snapshot write was attempted, and whether a persistence failure
was logged. -/
structure PostOutcome where
  status : PostStatus
  store : Store
  wroteFile : Bool
  loggedStoreError : Bool

/-- The POST path of `httpRadnoteHandler` (`src/radnote.go` lines 94–136).
`decoded` is the result of decoding the request body (`none` when reading or
unmarshaling failed, which returns HTTP 500 with no mutation).  A non-radiation
event returns HTTP 200 with no mutation.  Otherwise the record is replaced
when the device is new or the event's `When` is at least the stored one, the
whole mapping is serialized and written (`persistFails` tells whether
`os.WriteFile` fails; a failure is only logged); the handler never writes a
failure status after this point, so the request completes with the implicit
success status. -/
def httpRadnotePost (persistFails : Bool) (store : Store)
    (decoded : Option NoteEvent) : PostOutcome :=
  match decoded with
  | none =>
      { status := .internalServerError, store := store
      , wroteFile := false, loggedStoreError := false }
  | some event =>
      if event.NotefileID ≠ "_air.qo" then
        { status := .ok, store := store
        , wroteFile := false, loggedStoreError := false }
      else
        match lookupStore store event.DeviceUID with
        | none =>
            { status := .ok
            , store := insertStore store event.DeviceUID (mkStoredEvent event)
            , wroteFile := true
            , loggedStoreError := persistFails }
        | some currentEvent =>
            if event.When ≥ currentEvent.Event.When then
              { status := .ok
              , store := insertStore store event.DeviceUID (mkStoredEvent event)
              , wroteFile := true
              , loggedStoreError := persistFails }
            else
              { status := .ok, store := store
              , wroteFile := false, loggedStoreError := false }

/-- Response shape of the GET path of `httpRadnoteHandler`
(`src/radnote.go` lines 62–86): either the warning feed for a query
location, or the raw dump of the full device-record mapping. -/
inductive RadnoteGetResponse
  | warningFeed (warning : Bool)
  | fullList

/-- The GET path of `httpRadnoteHandler` (`src/radnote.go` lines 62–86).
`latQ`/`lonQ` are the query parameters after `strconv.ParseFloat`: `none`
when the parameter is missing or does not parse.  The feed is generated only
when both coordinates parse and they are not both zero; otherwise the full
list is returned.  The feed's payload is the warning flag computed by
`locationInWarningRegion` (`src/radnote.go` lines 185–194). -/
noncomputable def httpRadnoteGet (cfg : Config) (store : Store)
    (latQ lonQ : Option ℝ) : RadnoteGetResponse :=
  match latQ, lonQ with
  | some lat, some lon =>
      if ¬(lat = 0 ∧ lon = 0) then
        .warningFeed (locationInWarningRegion cfg store lat lon)
      else .fullList
  | _, _ => .fullList

/-- Response shape of `httpRadiationHandler` (`src/unnamed/part_001` lines
117–149): either the region-aggregate feed, or the raw dump of the full
device-record mapping. -/
inductive RadiationResponse
  | regionFeed (result : RegionResult)
  | fullList

/-- `httpRadiationHandler` (`src/unnamed/part_001` lines 117–149).  Each of
`latQ`, `lonQ`, `radiusQ` is the corresponding query parameter after
`strconv.ParseFloat`: `none` when the parameter is missing or does not parse
(the Go code additionally requires `latStr`/`lonStr` to be nonempty, which a
parse failure subsumes).  The aggregation runs only when all three parse and
the query point is not `(0,0)`; otherwise the full list is returned. -/
noncomputable def httpRadiationHandler (store : Store)
    (latQ lonQ radiusQ : Option ℝ) : RadiationResponse :=
  match latQ, lonQ, radiusQ with
  | some lat, some lon, some radiusMeters =>
      if ¬(lat = 0 ∧ lon = 0) then
        .regionFeed (generateJsonFeed store lat lon radiusMeters)
      else .fullList
  | _, _, _ => .fullList

/-- The squared chord length computed inside `metersApart`: the radicand
`dx*dx + dy*dy + dz*dz` of `src/radnote.go` line 180. -/
noncomputable def chordSq (lat1 lon1 lat2 lon2 : ℝ) : ℝ :=
  let degreesToRadians : ℝ := 3.1415926536 / 180
  let lon1' : ℝ := (lon1 - lon2) * degreesToRadians
  let lat1' : ℝ := lat1 * degreesToRadians
  let lat2' : ℝ := lat2 * degreesToRadians
  let dz : ℝ := Real.sin lat1' - Real.sin lat2'
  let dx : ℝ := Real.cos lon1' * Real.cos lat1' - Real.cos lat2'
  let dy : ℝ := Real.sin lon1' * Real.cos lat1'
  dx * dx + dy * dy + dz * dz

theorem metersApart_eq_chordSq (lat1 lon1 lat2 lon2 : ℝ) :
    metersApart lat1 lon1 lat2 lon2 =
      1000 * (Real.arcsin (Real.sqrt |chordSq lat1 lon1 lat2 lon2| / 2)
        * 2 * 6371) := rfl

theorem chord_sq_eq (t a b : ℝ) :
    (Real.cos t * Real.cos a - Real.cos b) * (Real.cos t * Real.cos a - Real.cos b) +
      (Real.sin t * Real.cos a) * (Real.sin t * Real.cos a) +
      (Real.sin a - Real.sin b) * (Real.sin a - Real.sin b) =
    2 - 2 * (Real.cos t * Real.cos a * Real.cos b + Real.sin a * Real.sin b) := by
  have ht := Real.sin_sq_add_cos_sq t
  have ha := Real.sin_sq_add_cos_sq a
  have hb := Real.sin_sq_add_cos_sq b
  nlinarith [ht, ha, hb]

theorem chordSq_comm (lat1 lon1 lat2 lon2 : ℝ) :
    chordSq lat1 lon1 lat2 lon2 = chordSq lat2 lon2 lat1 lon1 := by
  unfold chordSq
  rw [chord_sq_eq, chord_sq_eq]
  have h : (lon2 - lon1) * (3.1415926536 / 180) =
      -((lon1 - lon2) * (3.1415926536 / 180)) := by ring
  rw [h, Real.cos_neg]
  ring

theorem chordSq_self (lat lon : ℝ) : chordSq lat lon lat lon = 0 := by
  unfold chordSq
  simp

theorem chordSq_nonneg (lat1 lon1 lat2 lon2 : ℝ) :
    0 ≤ chordSq lat1 lon1 lat2 lon2 := by
  unfold chordSq
  nlinarith [mul_self_nonneg (Real.cos ((lon1 - lon2) * (3.1415926536 / 180)) *
      Real.cos (lat1 * (3.1415926536 / 180)) - Real.cos (lat2 * (3.1415926536 / 180))),
    mul_self_nonneg (Real.sin ((lon1 - lon2) * (3.1415926536 / 180)) *
      Real.cos (lat1 * (3.1415926536 / 180))),
    mul_self_nonneg (Real.sin (lat1 * (3.1415926536 / 180)) -
      Real.sin (lat2 * (3.1415926536 / 180)))]

theorem cos_combination_ge_neg_one (t a b : ℝ) :
    -1 ≤ Real.cos t * Real.cos a * Real.cos b + Real.sin a * Real.sin b := by
  have ha := Real.sin_sq_add_cos_sq a
  have hb := Real.sin_sq_add_cos_sq b
  have ht1 : (0 : ℝ) ≤ 1 + Real.cos t := by
    have := Real.neg_one_le_cos t
    linarith
  have ht2 : (0 : ℝ) ≤ 1 - Real.cos t := by
    have := Real.cos_le_one t
    linarith
  have h3 : (0 : ℝ) ≤ 1 + (Real.cos a * Real.cos b + Real.sin a * Real.sin b) := by
    nlinarith [sq_nonneg (Real.cos a + Real.cos b), sq_nonneg (Real.sin a + Real.sin b)]
  have h4 : (0 : ℝ) ≤ 1 - (Real.cos a * Real.cos b - Real.sin a * Real.sin b) := by
    nlinarith [sq_nonneg (Real.cos a - Real.cos b), sq_nonneg (Real.sin a + Real.sin b)]
  nlinarith [mul_nonneg ht1 h3, mul_nonneg ht2 h4]

theorem chordSq_le_four (lat1 lon1 lat2 lon2 : ℝ) :
    chordSq lat1 lon1 lat2 lon2 ≤ 4 := by
  unfold chordSq
  rw [chord_sq_eq]
  have := cos_combination_ge_neg_one ((lon1 - lon2) * (3.1415926536 / 180))
    (lat1 * (3.1415926536 / 180)) (lat2 * (3.1415926536 / 180))
  linarith

theorem recordTriggers_eq_true_iff (cfg : Config) (e : RadnoteEvent)
    (lat lon : ℝ) :
    recordTriggers cfg e lat lon = true ↔ qualifies cfg e lat lon := by
  unfold recordTriggers qualifies
  by_cases h1 : e.Body.Usv ≥ cfg.RadnoteWarningLevelUsv
  · by_cases h2 : e.Event.BestLat ≠ 0 ∨ e.Event.BestLon ≠ 0
    · by_cases h3 : metersApart e.Event.BestLat e.Event.BestLon lat lon
          ≤ cfg.RadnoteWarningRegionMeters
      · simp only [if_pos h1, if_pos h2, if_pos h3]
        tauto
      · simp only [if_pos h1, if_pos h2, if_neg h3]
        tauto
    · simp only [if_pos h1, if_neg h2]
      tauto
  · simp only [if_neg h1]
    tauto


/-- C4: the great-circle distance function `metersApart` returns 0 for
identical points and is symmetric in its two points. -/
theorem metersApart_point_laws (latA lonA latB lonB : ℝ) :
    metersApart latA lonA latA lonA = 0 ∧
      metersApart latA lonA latB lonB = metersApart latB lonB latA lonA := by
  constructor
  · rw [metersApart_eq_chordSq, chordSq_self]
    simp
  · rw [metersApart_eq_chordSq, metersApart_eq_chordSq, chordSq_comm]

/-- C4 witness: the laws of `metersApart` instantiated at the concrete points
(1, 2) and (3, 4). -/
theorem metersApart_point_laws_witness :
    metersApart 1 2 1 2 = 0 ∧ metersApart 1 2 3 4 = metersApart 3 4 1 2 :=
  metersApart_point_laws 1 2 3 4

/-- C9: for all real inputs, `metersApart` is total and bounded: the squared
chord length lies in [0, 4], so the argument of `arcsin` lies in [0, 1]
(no domain error), the result is non-negative and at most
1000 * pi * 6371 meters. -/
theorem metersApart_total_bounds (lat1 lon1 lat2 lon2 : ℝ) :
    0 ≤ chordSq lat1 lon1 lat2 lon2 ∧
    chordSq lat1 lon1 lat2 lon2 ≤ 4 ∧
    0 ≤ Real.sqrt |chordSq lat1 lon1 lat2 lon2| / 2 ∧
    Real.sqrt |chordSq lat1 lon1 lat2 lon2| / 2 ≤ 1 ∧
    0 ≤ metersApart lat1 lon1 lat2 lon2 ∧
    metersApart lat1 lon1 lat2 lon2 ≤ 1000 * Real.pi * 6371 := by
  have h0 := chordSq_nonneg lat1 lon1 lat2 lon2
  have h4 := chordSq_le_four lat1 lon1 lat2 lon2
  have habs : |chordSq lat1 lon1 lat2 lon2| = chordSq lat1 lon1 lat2 lon2 :=
    abs_of_nonneg h0
  have hs0 : 0 ≤ Real.sqrt |chordSq lat1 lon1 lat2 lon2| := Real.sqrt_nonneg _
  have hs2 : Real.sqrt |chordSq lat1 lon1 lat2 lon2| ≤ 2 := by
    rw [habs]
    have : Real.sqrt (chordSq lat1 lon1 lat2 lon2) ≤ Real.sqrt 4 :=
      Real.sqrt_le_sqrt h4
    have h42 : Real.sqrt 4 = 2 := by
      rw [show (4 : ℝ) = 2 ^ 2 by norm_num]
      exact Real.sqrt_sq (by norm_num)
    linarith
  have harg0 : 0 ≤ Real.sqrt |chordSq lat1 lon1 lat2 lon2| / 2 := by linarith
  have harg1 : Real.sqrt |chordSq lat1 lon1 lat2 lon2| / 2 ≤ 1 := by linarith
  have hasin0 : 0 ≤ Real.arcsin (Real.sqrt |chordSq lat1 lon1 lat2 lon2| / 2) :=
    Real.arcsin_nonneg.mpr harg0
  have hasin1 : Real.arcsin (Real.sqrt |chordSq lat1 lon1 lat2 lon2| / 2)
      ≤ Real.pi / 2 := Real.arcsin_le_pi_div_two _
  refine ⟨h0, h4, harg0, harg1, ?_, ?_⟩
  · rw [metersApart_eq_chordSq]
    nlinarith
  · rw [metersApart_eq_chordSq]
    nlinarith

/-- C9 witness: the totality bounds instantiated at the concrete points
(89, 179) and (-12, 33). -/
theorem metersApart_total_bounds_witness :
    0 ≤ metersApart 89 179 (-12) 33 ∧
      metersApart 89 179 (-12) 33 ≤ 1000 * Real.pi * 6371 :=
  ⟨(metersApart_total_bounds 89 179 (-12) 33).2.2.2.2.1,
   (metersApart_total_bounds 89 179 (-12) 33).2.2.2.2.2⟩

/-- C2: the geofence evaluator returns true exactly when some stored record
has dose rate at or above the configured threshold, a location that is not
the `(0,0)` sentinel, and great-circle distance to the query point at most
the configured region radius; on the empty store it returns false.  Both
comparisons are inclusive. -/
theorem locationInWarningRegion_iff (cfg : Config) (store : Store)
    (lat lon : ℝ) :
    (locationInWarningRegion cfg store lat lon = true ↔
      ∃ kv ∈ store, qualifies cfg kv.2 lat lon) ∧
    locationInWarningRegion cfg ([] : Store) lat lon = false := by
  constructor
  · unfold locationInWarningRegion
    rw [List.any_eq_true]
    constructor
    · rintro ⟨kv, hmem, htrig⟩
      exact ⟨kv, hmem, (recordTriggers_eq_true_iff cfg kv.2 lat lon).1 htrig⟩
    · rintro ⟨kv, hmem, hq⟩
      exact ⟨kv, hmem, (recordTriggers_eq_true_iff cfg kv.2 lat lon).2 hq⟩
  · rfl

/-- C2 witness: the evaluator characterization instantiated at a concrete
configuration, the empty store and the query point (1, 2). -/
theorem locationInWarningRegion_iff_witness :
    (locationInWarningRegion ⟨1, 100⟩ ([] : Store) 1 2 = true ↔
      ∃ kv ∈ ([] : Store), qualifies ⟨1, 100⟩ kv.2 1 2) ∧
    locationInWarningRegion ⟨1, 100⟩ ([] : Store) 1 2 = false :=
  locationInWarningRegion_iff ⟨1, 100⟩ ([] : Store) 1 2

/-- C8: the geofence evaluator's result does not depend on the order in
which the store's records are scanned: permuted stores give the same
boolean. -/
theorem locationInWarningRegion_perm (cfg : Config) (s1 s2 : Store)
    (lat lon : ℝ) (h : List.Perm s1 s2) :
    locationInWarningRegion cfg s1 lat lon =
      locationInWarningRegion cfg s2 lat lon := by
  have h12 : locationInWarningRegion cfg s1 lat lon = true ↔
      locationInWarningRegion cfg s2 lat lon = true := by
    unfold locationInWarningRegion
    rw [List.any_eq_true, List.any_eq_true]
    constructor
    · rintro ⟨kv, hm, ht⟩
      exact ⟨kv, h.mem_iff.mp hm, ht⟩
    · rintro ⟨kv, hm, ht⟩
      exact ⟨kv, h.mem_iff.mpr hm, ht⟩
  cases hA : locationInWarningRegion cfg s1 lat lon <;>
    cases hB : locationInWarningRegion cfg s2 lat lon <;> simp_all

/-- A sample stored record used by concrete witnesses. -/
def sampleRecord (u lat lon : ℝ) : RadnoteEvent :=
  { Event := { DeviceUID := "dev", When := 0, NotefileID := "_air.qo"
             , BestLat := lat, BestLon := lon, Body := none }
  , Body := { RadnoteEventBody.zero with Usv := u } }

/-- C8 witness: scanning a concrete two-record store in either order gives
the same evaluator result. -/
theorem locationInWarningRegion_perm_witness :
    locationInWarningRegion ⟨1, 100⟩
        [("a", sampleRecord 2 3 4), ("b", sampleRecord 0 5 6)] 1 2 =
      locationInWarningRegion ⟨1, 100⟩
        [("b", sampleRecord 0 5 6), ("a", sampleRecord 2 3 4)] 1 2 :=
  locationInWarningRegion_perm ⟨1, 100⟩ _ _ 1 2
    (List.Perm.swap ("b", sampleRecord 0 5 6) ("a", sampleRecord 2 3 4) [])

theorem deviceWhens_append (events : List NoteEvent) (e : NoteEvent)
    (d : String) :
    deviceWhens (events ++ [e]) d =
      deviceWhens events d ++
        (if e.NotefileID = "_air.qo" ∧ e.DeviceUID = d then [e.When] else []) := by
  unfold deviceWhens
  rw [List.filter_append, List.map_append]
  by_cases h : e.NotefileID = "_air.qo" ∧ e.DeviceUID = d
  · simp [List.filter, h.1, h.2, h]
  · rw [if_neg h]
    have : (e.NotefileID == "_air.qo" && e.DeviceUID == d) = false := by
      rcases not_and_or.mp h with h1 | h1 <;> simp [h1]
    simp [List.filter, this]

/-- The stored-timestamp invariant relating a store to the sequence of
events processed so far: an absent record means no radiation-kind event was
seen for that device, and a present record carries the largest `When` among
them. -/
def StoreInv (events : List NoteEvent) (s : Store) : Prop :=
  ∀ d : String,
    (lookupStore s d = none → deviceWhens events d = []) ∧
    ∀ r : RadnoteEvent, lookupStore s d = some r →
      r.Event.When ∈ deviceWhens events d ∧
        ∀ w ∈ deviceWhens events d, w ≤ r.Event.When

theorem storeInv_nil : StoreInv [] [] := by
  intro d
  constructor
  · intro _
    rfl
  · intro r hr
    simp [lookupStore] at hr

theorem processEvent_not_air (s : Store) (e : NoteEvent)
    (hk : e.NotefileID ≠ "_air.qo") : processEvent s e = s := by
  unfold processEvent
  rw [if_pos hk]

theorem processEvent_new (s : Store) (e : NoteEvent)
    (hk : e.NotefileID = "_air.qo")
    (hcur : lookupStore s e.DeviceUID = none) :
    processEvent s e = insertStore s e.DeviceUID (mkStoredEvent e) := by
  unfold processEvent
  rw [if_neg (not_not.mpr hk), hcur]

theorem processEvent_fresh (s : Store) (e : NoteEvent) (cur : RadnoteEvent)
    (hk : e.NotefileID = "_air.qo")
    (hcur : lookupStore s e.DeviceUID = some cur)
    (hge : e.When ≥ cur.Event.When) :
    processEvent s e = insertStore s e.DeviceUID (mkStoredEvent e) := by
  unfold processEvent
  rw [if_neg (not_not.mpr hk), hcur]
  exact if_pos hge

theorem processEvent_stale (s : Store) (e : NoteEvent) (cur : RadnoteEvent)
    (hk : e.NotefileID = "_air.qo")
    (hcur : lookupStore s e.DeviceUID = some cur)
    (hge : ¬e.When ≥ cur.Event.When) :
    processEvent s e = s := by
  unfold processEvent
  rw [if_neg (not_not.mpr hk), hcur]
  exact if_neg hge

theorem mkStoredEvent_When (e : NoteEvent) :
    (mkStoredEvent e).Event.When = e.When := rfl

theorem storeInv_step (events : List NoteEvent) (s : Store) (e : NoteEvent)
    (h : StoreInv events s) : StoreInv (events ++ [e]) (processEvent s e) := by
  intro d
  by_cases hk : e.NotefileID = "_air.qo"
  · by_cases hd : e.DeviceUID = d
    · -- the event is a radiation event for this device
      subst hd
      have hdw : deviceWhens (events ++ [e]) e.DeviceUID
          = deviceWhens events e.DeviceUID ++ [e.When] := by
        rw [deviceWhens_append, if_pos ⟨hk, rfl⟩]
      rcases hcur : lookupStore s e.DeviceUID with _ | cur
      · -- no existing record: insert
        have hstep := processEvent_new s e hk hcur
        have hnone : deviceWhens events e.DeviceUID = [] :=
          (h e.DeviceUID).1 hcur
        constructor
        · intro hlook
          rw [hstep, lookupStore_insertStore_self] at hlook
          cases hlook
        · intro r hr
          rw [hstep, lookupStore_insertStore_self] at hr
          have hre := Option.some.inj hr
          rw [hdw, hnone, ← hre]
          constructor
          · simp [mkStoredEvent_When]
          · intro w hw
            simp at hw
            simp [mkStoredEvent_When, hw]
      · by_cases hge : e.When ≥ cur.Event.When
        · -- newer or equal: replace
          have hstep := processEvent_fresh s e cur hk hcur hge
          have hold := (h e.DeviceUID).2 cur hcur
          constructor
          · intro hlook
            rw [hstep, lookupStore_insertStore_self] at hlook
            cases hlook
          · intro r hr
            rw [hstep, lookupStore_insertStore_self] at hr
            have hre := Option.some.inj hr
            rw [hdw, ← hre]
            constructor
            · simp [mkStoredEvent_When]
            · intro w hw
              rcases List.mem_append.mp hw with hw1 | hw1
              · have := hold.2 w hw1
                rw [mkStoredEvent_When]
                omega
              · simp at hw1
                simp [mkStoredEvent_When, hw1]
        · -- stale: no mutation
          have hstep := processEvent_stale s e cur hk hcur hge
          rw [hstep]
          constructor
          · intro hlook
            rw [hlook] at hcur
            cases hcur
          · intro r hr
            rw [hr] at hcur
            have hre := Option.some.inj hcur
            have hold := (h e.DeviceUID).2 r hr
            rw [hdw]
            constructor
            · exact List.mem_append_left _ hold.1
            · intro w hw
              rcases List.mem_append.mp hw with hw1 | hw1
              · exact hold.2 w hw1
              · simp at hw1
                rw [← hre] at hge
                omega
    · -- radiation event for another device
      have hdw : deviceWhens (events ++ [e]) d = deviceWhens events d := by
        rw [deviceWhens_append, if_neg (by tauto), List.append_nil]
      have hlook : lookupStore (processEvent s e) d = lookupStore s d := by
        rcases hcur : lookupStore s e.DeviceUID with _ | cur
        · rw [processEvent_new s e hk hcur]
          exact lookupStore_insertStore_other s e.DeviceUID d _ hd
        · by_cases hge : e.When ≥ cur.Event.When
          · rw [processEvent_fresh s e cur hk hcur hge]
            exact lookupStore_insertStore_other s e.DeviceUID d _ hd
          · rw [processEvent_stale s e cur hk hcur hge]
      rw [hdw, hlook]
      exact h d
  · -- not a radiation event: no mutation, no new timestamp
    have hdw : deviceWhens (events ++ [e]) d = deviceWhens events d := by
      rw [deviceWhens_append, if_neg (by tauto), List.append_nil]
    rw [processEvent_not_air s e hk, hdw]
    exact h d

theorem storeInv_processAll (events : List NoteEvent) :
    StoreInv events (processAll events) := by
  induction events using List.reverseRecOn with
  | nil => exact storeInv_nil
  | append_singleton l e ih =>
      have hfold : processAll (l ++ [e]) = processEvent (processAll l) e := by
        unfold processAll
        rw [List.foldl_append]
        rfl
      rw [hfold]
      exact storeInv_step l (processAll l) e ih

/-- C1: starting from the empty store, the stored record for a device
carries the maximum `When` among processed radiation-kind envelopes for that
device; an envelope of the wrong kind, or with `When` strictly below the
stored value, leaves the store unchanged, while a radiation envelope with
`When` at least the stored value (or arriving with no record present)
replaces the record. -/
theorem stored_record_when_is_max (events : List NoteEvent) (d : String)
    (s : Store) (e : NoteEvent) :
    (∀ r, lookupStore (processAll events) d = some r →
        r.Event.When ∈ deviceWhens events d ∧
          ∀ w ∈ deviceWhens events d, w ≤ r.Event.When) ∧
    (e.NotefileID ≠ "_air.qo" → processEvent s e = s) ∧
    (∀ cur, lookupStore s e.DeviceUID = some cur → e.When < cur.Event.When →
        processEvent s e = s) ∧
    (e.NotefileID = "_air.qo" →
      (lookupStore s e.DeviceUID = none ∨
        ∃ cur, lookupStore s e.DeviceUID = some cur ∧ e.When ≥ cur.Event.When) →
      lookupStore (processEvent s e) e.DeviceUID = some (mkStoredEvent e)) := by
  refine ⟨?_, ?_, ?_, ?_⟩
  · intro r hr
    exact (storeInv_processAll events d).2 r hr
  · intro hk
    exact processEvent_not_air s e hk
  · intro cur hcur hlt
    by_cases hk : e.NotefileID = "_air.qo"
    · exact processEvent_stale s e cur hk hcur (not_le.mpr hlt)
    · exact processEvent_not_air s e hk
  · intro hk hacc
    rcases hacc with hnone | ⟨cur, hcur, hge⟩
    · rw [processEvent_new s e hk hnone]
      exact lookupStore_insertStore_self s e.DeviceUID _
    · rw [processEvent_fresh s e cur hk hcur hge]
      exact lookupStore_insertStore_self s e.DeviceUID _

/-- A sample radiation event used by concrete witnesses. -/
def evA : NoteEvent :=
  { DeviceUID := "dev1", When := 5, NotefileID := "_air.qo"
  , BestLat := 1, BestLon := 2
  , Body := some { RadnoteEventBody.zero with Usv := 3 } }

/-- A stale sample radiation event for the same device as `evA`. -/
def evB : NoteEvent := { evA with When := 3 }

/-- A sample event of a non-radiation notefile kind. -/
def evC : NoteEvent := { evA with NotefileID := "sensors.db" }

/-- C1 witness: after processing a fresh and then a stale envelope for one
device, the stored record carries the maximum timestamp 5. -/
theorem stored_record_when_is_max_witness :
    (mkStoredEvent evA).Event.When ∈ deviceWhens [evA, evB] "dev1" ∧
      ∀ w ∈ deviceWhens [evA, evB] "dev1", w ≤ (mkStoredEvent evA).Event.When :=
  (stored_record_when_is_max [evA, evB] "dev1" [] evA).1 (mkStoredEvent evA) rfl

/-- C5: an envelope of the wrong notefile kind, or one whose timestamp is
strictly below the stored one, causes no store mutation, no snapshot write,
no logged failure, and the request completes with the success status. -/
theorem irrelevant_envelope_ignored (pf : Bool) (store : Store)
    (e : NoteEvent) :
    (e.NotefileID ≠ "_air.qo" →
      httpRadnotePost pf store (some e) =
        { status := PostStatus.ok, store := store
        , wroteFile := false, loggedStoreError := false }) ∧
    (∀ cur, lookupStore store e.DeviceUID = some cur →
      e.When < cur.Event.When →
      httpRadnotePost pf store (some e) =
        { status := PostStatus.ok, store := store
        , wroteFile := false, loggedStoreError := false }) := by
  constructor
  · intro hk
    simp only [httpRadnotePost]
    rw [if_pos hk]
  · intro cur hcur hlt
    by_cases hk : e.NotefileID ≠ "_air.qo"
    · simp only [httpRadnotePost]
      rw [if_pos hk]
    · simp only [httpRadnotePost]
      rw [if_neg hk, hcur]
      exact if_neg (not_le.mpr hlt)

/-- C5 witness: a non-radiation envelope on the empty store is ignored with
a success status. -/
theorem irrelevant_envelope_ignored_witness :
    httpRadnotePost false [] (some evC) =
      { status := PostStatus.ok, store := []
      , wroteFile := false, loggedStoreError := false } :=
  (irrelevant_envelope_ignored false [] evC).1 (by decide)

/-- C6: when a snapshot write fails for an accepted update, the in-memory
store still holds the new record exactly as on a successful write, the new
record is observed by subsequent lookups, the failure is logged, and the
caller still gets the success status. -/
theorem persist_failure_keeps_update (store : Store) (e : NoteEvent)
    (hk : e.NotefileID = "_air.qo")
    (hacc : lookupStore store e.DeviceUID = none ∨
      ∃ cur, lookupStore store e.DeviceUID = some cur ∧
        e.When ≥ cur.Event.When) :
    (httpRadnotePost true store (some e)).store
        = insertStore store e.DeviceUID (mkStoredEvent e) ∧
      (httpRadnotePost false store (some e)).store
        = insertStore store e.DeviceUID (mkStoredEvent e) ∧
      lookupStore (httpRadnotePost true store (some e)).store e.DeviceUID
        = some (mkStoredEvent e) ∧
      (httpRadnotePost true store (some e)).status = PostStatus.ok ∧
      (httpRadnotePost true store (some e)).wroteFile = true ∧
      (httpRadnotePost true store (some e)).loggedStoreError = true ∧
      (httpRadnotePost false store (some e)).loggedStoreError = false := by
  have hpost : ∀ pf : Bool, httpRadnotePost pf store (some e) =
      { status := PostStatus.ok
      , store := insertStore store e.DeviceUID (mkStoredEvent e)
      , wroteFile := true, loggedStoreError := pf } := by
    intro pf
    simp only [httpRadnotePost]
    rw [if_neg (not_not.mpr hk)]
    rcases hacc with hnone | ⟨cur, hcur, hge⟩
    · rw [hnone]
    · rw [hcur]
      exact if_pos hge
  rw [hpost true, hpost false]
  refine ⟨rfl, rfl, ?_, rfl, rfl, rfl, rfl⟩
  exact lookupStore_insertStore_self store e.DeviceUID _

/-- C6 witness: a failed snapshot write after accepting `evA` on the empty
store leaves the new record readable, logs the failure and reports
success. -/
theorem persist_failure_keeps_update_witness :
    (httpRadnotePost true [] (some evA)).store
        = insertStore [] evA.DeviceUID (mkStoredEvent evA) ∧
      (httpRadnotePost false [] (some evA)).store
        = insertStore [] evA.DeviceUID (mkStoredEvent evA) ∧
      lookupStore (httpRadnotePost true [] (some evA)).store evA.DeviceUID
        = some (mkStoredEvent evA) ∧
      (httpRadnotePost true [] (some evA)).status = PostStatus.ok ∧
      (httpRadnotePost true [] (some evA)).wroteFile = true ∧
      (httpRadnotePost true [] (some evA)).loggedStoreError = true ∧
      (httpRadnotePost false [] (some evA)).loggedStoreError = false :=
  persist_failure_keeps_update [] evA rfl (Or.inl rfl)

/-- C10: a query whose lat and lon both parse to exactly 0 is never routed
to the geofence or aggregation path: both handlers return the raw dump of
the full device-record mapping. -/
theorem sentinel_query_returns_full_list (cfg : Config) (store : Store)
    (radiusQ : Option ℝ) :
    httpRadnoteGet cfg store (some 0) (some 0) = RadnoteGetResponse.fullList ∧
      httpRadiationHandler store (some 0) (some 0) radiusQ
        = RadiationResponse.fullList := by
  constructor
  · simp [httpRadnoteGet]
  · cases radiusQ with
    | none => rfl
    | some radius => simp [httpRadiationHandler]

/-- C10 witness: the sentinel query on the empty store with radius 7 returns
the raw dump from both handlers. -/
theorem sentinel_query_returns_full_list_witness :
    httpRadnoteGet ⟨1, 100⟩ [] (some 0) (some 0)
        = RadnoteGetResponse.fullList ∧
      httpRadiationHandler [] (some 0) (some 0) (some 7)
        = RadiationResponse.fullList :=
  sentinel_query_returns_full_list ⟨1, 100⟩ [] (some 7)

/-- C7 counterexample: with lat = 1, lon = 1 and the radius parameter
unspecified (it fails to parse), the radiation handler returns the raw full
list — no aggregation with the default radius is performed. -/
theorem radius_unspecified_no_aggregation :
    httpRadiationHandler [] (some 1) (some 1) none
        = RadiationResponse.fullList ∧
      RadiationResponse.fullList ≠
        RadiationResponse.regionFeed (generateJsonFeed [] 1 1 10) := by
  constructor
  · rfl
  · intro h
    cases h

/-- C7 (amended): when the supplied radius parses to zero, the handler
aggregates with the default radius 10 substituted — the result reports
radius 10 and equals the aggregation at radius 10; when the radius parameter
is unspecified or unparseable, the handler does not aggregate and returns
the raw full list instead. -/
theorem radius_zero_default (store : Store) (lat lon : ℝ)
    (latQ lonQ : Option ℝ) (h : ¬(lat = 0 ∧ lon = 0)) :
    httpRadiationHandler store (some lat) (some lon) (some 0)
        = RadiationResponse.regionFeed (generateJsonFeed store lat lon 0) ∧
      (generateJsonFeed store lat lon 0).radius_meters = 10 ∧
      generateJsonFeed store lat lon 0 = generateJsonFeed store lat lon 10 ∧
      httpRadiationHandler store latQ lonQ none
        = RadiationResponse.fullList := by
  refine ⟨?_, ?_, ?_, ?_⟩
  · simp only [httpRadiationHandler]
    rw [if_pos h]
  · norm_num [generateJsonFeed]
  · norm_num [generateJsonFeed]
  · cases latQ <;> cases lonQ <;> rfl

/-- C7 witness: the amended claim at the concrete query (1, 1) with radius 0
and the empty store, and with missing parameters. -/
theorem radius_zero_default_witness :
    httpRadiationHandler [] (some 1) (some 1) (some 0)
        = RadiationResponse.regionFeed (generateJsonFeed [] 1 1 0) ∧
      (generateJsonFeed [] 1 1 0).radius_meters = 10 ∧
      generateJsonFeed [] 1 1 0 = generateJsonFeed [] 1 1 10 ∧
      httpRadiationHandler [] none none none = RadiationResponse.fullList :=
  radius_zero_default [] 1 1 none none (by norm_num)

theorem regionStep_included (lat lon radiusMeters : ℝ) (acc : RegionAcc)
    (kv : String × RadnoteEvent)
    (hA : kv.2.Event.BestLat ≠ 0 ∨ kv.2.Event.BestLon ≠ 0)
    (hB : metersApart kv.2.Event.BestLat kv.2.Event.BestLon lat lon
      ≤ radiusMeters) :
    regionStep lat lon radiusMeters acc kv =
      { count := acc.count + 1
      , mn := if kv.2.Body.Usv
              < (if acc.count = 0 then kv.2.Body.Usv else acc.mn)
          then kv.2.Body.Usv
          else (if acc.count = 0 then kv.2.Body.Usv else acc.mn)
      , mx := if kv.2.Body.Usv
              > (if acc.count = 0 then kv.2.Body.Usv else acc.mx)
          then kv.2.Body.Usv
          else (if acc.count = 0 then kv.2.Body.Usv else acc.mx)
      , sum := acc.sum + kv.2.Body.Usv } := by
  simp only [regionStep]
  rw [if_pos hA, if_pos hB]

theorem regionStep_skipped (lat lon radiusMeters : ℝ) (acc : RegionAcc)
    (kv : String × RadnoteEvent)
    (hnP : ¬((kv.2.Event.BestLat ≠ 0 ∨ kv.2.Event.BestLon ≠ 0) ∧
      metersApart kv.2.Event.BestLat kv.2.Event.BestLon lat lon
        ≤ radiusMeters)) :
    regionStep lat lon radiusMeters acc kv = acc := by
  simp only [regionStep]
  by_cases hA : kv.2.Event.BestLat ≠ 0 ∨ kv.2.Event.BestLon ≠ 0
  · rw [if_pos hA, if_neg (fun hB => hnP ⟨hA, hB⟩)]
  · rw [if_neg hA]

theorem includedRecords_append_included (l : Store)
    (kv : String × RadnoteEvent) (lat lon radiusMeters : ℝ)
    (hP : (kv.2.Event.BestLat ≠ 0 ∨ kv.2.Event.BestLon ≠ 0) ∧
      metersApart kv.2.Event.BestLat kv.2.Event.BestLon lat lon
        ≤ radiusMeters) :
    includedRecords (l ++ [kv]) lat lon radiusMeters
      = includedRecords l lat lon radiusMeters ++ [kv] := by
  unfold includedRecords
  rw [List.filter_append]
  congr 1
  simp [List.filter, decide_eq_true hP]

theorem includedRecords_append_skipped (l : Store)
    (kv : String × RadnoteEvent) (lat lon radiusMeters : ℝ)
    (hnP : ¬((kv.2.Event.BestLat ≠ 0 ∨ kv.2.Event.BestLon ≠ 0) ∧
      metersApart kv.2.Event.BestLat kv.2.Event.BestLon lat lon
        ≤ radiusMeters)) :
    includedRecords (l ++ [kv]) lat lon radiusMeters
      = includedRecords l lat lon radiusMeters := by
  unfold includedRecords
  rw [List.filter_append]
  have h0 : List.filter (fun kv =>
      decide ((kv.2.Event.BestLat ≠ 0 ∨ kv.2.Event.BestLon ≠ 0) ∧
        metersApart kv.2.Event.BestLat kv.2.Event.BestLon lat lon
          ≤ radiusMeters)) [kv] = [] := by
    simp [List.filter, decide_eq_false hnP]
  rw [h0, List.append_nil]

theorem regionFold_spec (lat lon radiusMeters : ℝ) (l : Store) :
    (List.foldl (regionStep lat lon radiusMeters) ⟨0, 0, 0, 0⟩ l).count
        = ((includedRecords l lat lon radiusMeters).length : ℝ) ∧
    (List.foldl (regionStep lat lon radiusMeters) ⟨0, 0, 0, 0⟩ l).sum
        = (includedUsvs l lat lon radiusMeters).sum ∧
    (includedRecords l lat lon radiusMeters = [] →
      (List.foldl (regionStep lat lon radiusMeters) ⟨0, 0, 0, 0⟩ l).mn = 0 ∧
      (List.foldl (regionStep lat lon radiusMeters) ⟨0, 0, 0, 0⟩ l).mx = 0) ∧
    (includedRecords l lat lon radiusMeters ≠ [] →
      (List.foldl (regionStep lat lon radiusMeters) ⟨0, 0, 0, 0⟩ l).mn
          ∈ includedUsvs l lat lon radiusMeters ∧
      (List.foldl (regionStep lat lon radiusMeters) ⟨0, 0, 0, 0⟩ l).mx
          ∈ includedUsvs l lat lon radiusMeters ∧
      ∀ u ∈ includedUsvs l lat lon radiusMeters,
        (List.foldl (regionStep lat lon radiusMeters) ⟨0, 0, 0, 0⟩ l).mn ≤ u ∧
          u ≤ (List.foldl (regionStep lat lon radiusMeters) ⟨0, 0, 0, 0⟩ l).mx) := by
  induction l using List.reverseRecOn with
  | nil =>
      refine ⟨by simp [includedRecords], by simp [includedUsvs, includedRecords],
        ?_, ?_⟩
      · intro _
        exact ⟨rfl, rfl⟩
      · intro h
        exact absurd rfl h
  | append_singleton t kv ih =>
      obtain ⟨ihc, ihs, ihe, ihne⟩ := ih
      set acc := List.foldl (regionStep lat lon radiusMeters) ⟨0, 0, 0, 0⟩ t
        with hacc
      have hfold : List.foldl (regionStep lat lon radiusMeters) ⟨0, 0, 0, 0⟩
          (t ++ [kv]) = regionStep lat lon radiusMeters acc kv := by
        rw [hacc, List.foldl_append]
        rfl
      by_cases hP : (kv.2.Event.BestLat ≠ 0 ∨ kv.2.Event.BestLon ≠ 0) ∧
          metersApart kv.2.Event.BestLat kv.2.Event.BestLon lat lon
            ≤ radiusMeters
      · -- the new record is included
        have hinc := includedRecords_append_included t kv lat lon radiusMeters hP
        have husv : includedUsvs (t ++ [kv]) lat lon radiusMeters
            = includedUsvs t lat lon radiusMeters ++ [kv.2.Body.Usv] := by
          unfold includedUsvs
          rw [hinc, List.map_append]
          rfl
        have hstep := regionStep_included lat lon radiusMeters acc kv hP.1 hP.2
        have hc : (regionStep lat lon radiusMeters acc kv).count
            = acc.count + 1 := by
          rw [hstep]
        have hs : (regionStep lat lon radiusMeters acc kv).sum
            = acc.sum + kv.2.Body.Usv := by
          rw [hstep]
        by_cases hE : includedRecords t lat lon radiusMeters = []
        · -- the first included record seeds min and max
          have husv0 : includedUsvs t lat lon radiusMeters = [] := by
            unfold includedUsvs
            rw [hE]
            rfl
          have hc0 : acc.count = 0 := by
            rw [ihc, hE]
            simp
          have hmn : (regionStep lat lon radiusMeters acc kv).mn
              = kv.2.Body.Usv := by
            rw [hstep]
            simp [hc0, lt_irrefl]
          have hmx : (regionStep lat lon radiusMeters acc kv).mx
              = kv.2.Body.Usv := by
            rw [hstep]
            simp [hc0, lt_irrefl]
          refine ⟨?_, ?_, ?_, ?_⟩
          · rw [hfold, hc, hinc, ihc, hE]
            simp
          · rw [hfold, hs, husv, ihs, husv0]
            simp
          · intro habs
            rw [hinc, hE] at habs
            simp at habs
          · intro _
            rw [hfold, hmn, hmx, husv, husv0]
            simp
        · -- the running min and max are already seeded
          have hlen0 : (includedRecords t lat lon radiusMeters).length ≠ 0 :=
            fun h0 => hE (List.length_eq_zero.mp h0)
          have hcne : acc.count ≠ 0 := by
            rw [ihc]
            exact_mod_cast hlen0
          obtain ⟨hmnmem, hmxmem, hbounds⟩ := ihne hE
          have hmn : (regionStep lat lon radiusMeters acc kv).mn
              = if kv.2.Body.Usv < acc.mn then kv.2.Body.Usv else acc.mn := by
            rw [hstep]
            simp [hcne]
          have hmx : (regionStep lat lon radiusMeters acc kv).mx
              = if kv.2.Body.Usv > acc.mx then kv.2.Body.Usv else acc.mx := by
            rw [hstep]
            simp [hcne]
          refine ⟨?_, ?_, ?_, ?_⟩
          · rw [hfold, hc, hinc, ihc, List.length_append,
              List.length_singleton]
            push_cast
            ring
          · rw [hfold, hs, husv, ihs, List.sum_append]
            simp
          · intro habs
            rw [hinc] at habs
            rcases List.append_eq_nil.mp habs with ⟨_, h2⟩
            cases h2
          · intro _
            rw [hfold, hmn, hmx, husv]
            refine ⟨?_, ?_, ?_⟩
            · by_cases hlt : kv.2.Body.Usv < acc.mn
              · rw [if_pos hlt]
                exact List.mem_append_right _ (by simp)
              · rw [if_neg hlt]
                exact List.mem_append_left _ hmnmem
            · by_cases hgt : kv.2.Body.Usv > acc.mx
              · rw [if_pos hgt]
                exact List.mem_append_right _ (by simp)
              · rw [if_neg hgt]
                exact List.mem_append_left _ hmxmem
            · intro u hu
              rcases List.mem_append.mp hu with hu1 | hu1
              · have hb := hbounds u hu1
                constructor
                · by_cases hlt : kv.2.Body.Usv < acc.mn
                  · rw [if_pos hlt]
                    linarith [hb.1]
                  · rw [if_neg hlt]
                    exact hb.1
                · by_cases hgt : kv.2.Body.Usv > acc.mx
                  · rw [if_pos hgt]
                    linarith [hb.2]
                  · rw [if_neg hgt]
                    exact hb.2
              · simp at hu1
                subst hu1
                constructor
                · by_cases hlt : kv.2.Body.Usv < acc.mn
                  · simp [if_pos hlt]
                  · rw [if_neg hlt]
                    exact not_lt.mp hlt
                · by_cases hgt : kv.2.Body.Usv > acc.mx
                  · simp [if_pos hgt]
                  · rw [if_neg hgt]
                    exact not_lt.mp hgt
      · -- the new record is skipped
        have hinc := includedRecords_append_skipped t kv lat lon radiusMeters hP
        have husv : includedUsvs (t ++ [kv]) lat lon radiusMeters
            = includedUsvs t lat lon radiusMeters := by
          unfold includedUsvs
          rw [hinc]
        have hstep := regionStep_skipped lat lon radiusMeters acc kv hP
        rw [hfold, hstep, hinc, husv]
        exact ⟨ihc, ihs, ihe, ihne⟩

/-- C3: the region aggregator includes exactly the located (non-sentinel)
records within the effective query radius; over the included records the
result's count is their number, min and max are the least and greatest dose
rate among them, and avg is their sum divided by count when the set is
nonempty; over an empty match set it returns count = 0, min = 0, max = 0 and
avg = 0 without performing the division.  Whenever the supplied radius is
nonzero, the effective radius is the supplied one. -/
theorem generateJsonFeed_spec (store : Store) (lat lon radiusMeters : ℝ) :
    (∀ kv, kv ∈ includedRecords store lat lon
          (generateJsonFeed store lat lon radiusMeters).radius_meters ↔
      kv ∈ store ∧ (kv.2.Event.BestLat ≠ 0 ∨ kv.2.Event.BestLon ≠ 0) ∧
        metersApart kv.2.Event.BestLat kv.2.Event.BestLon lat lon
          ≤ (generateJsonFeed store lat lon radiusMeters).radius_meters) ∧
    (radiusMeters ≠ 0 →
      (generateJsonFeed store lat lon radiusMeters).radius_meters
        = radiusMeters) ∧
    (generateJsonFeed store lat lon radiusMeters).count
      = ((includedRecords store lat lon
          (generateJsonFeed store lat lon radiusMeters).radius_meters).length
            : ℝ) ∧
    (includedRecords store lat lon
        (generateJsonFeed store lat lon radiusMeters).radius_meters = [] →
      (generateJsonFeed store lat lon radiusMeters).count = 0 ∧
      (generateJsonFeed store lat lon radiusMeters).usv_min = 0 ∧
      (generateJsonFeed store lat lon radiusMeters).usv_max = 0 ∧
      (generateJsonFeed store lat lon radiusMeters).usv_avg = 0) ∧
    (includedRecords store lat lon
        (generateJsonFeed store lat lon radiusMeters).radius_meters ≠ [] →
      (generateJsonFeed store lat lon radiusMeters).usv_min
          ∈ includedUsvs store lat lon
            (generateJsonFeed store lat lon radiusMeters).radius_meters ∧
      (generateJsonFeed store lat lon radiusMeters).usv_max
          ∈ includedUsvs store lat lon
            (generateJsonFeed store lat lon radiusMeters).radius_meters ∧
      (∀ u ∈ includedUsvs store lat lon
          (generateJsonFeed store lat lon radiusMeters).radius_meters,
        (generateJsonFeed store lat lon radiusMeters).usv_min ≤ u ∧
          u ≤ (generateJsonFeed store lat lon radiusMeters).usv_max) ∧
      (generateJsonFeed store lat lon radiusMeters).usv_avg
        = (includedUsvs store lat lon
            (generateJsonFeed store lat lon radiusMeters).radius_meters).sum
          / (generateJsonFeed store lat lon radiusMeters).count) := by
  have hrm : (generateJsonFeed store lat lon radiusMeters).radius_meters
      = (if radiusMeters = 0 then 10 else radiusMeters) := rfl
  rw [hrm]
  set rEff := if radiusMeters = 0 then 10 else radiusMeters with hrEff
  have hcnt : (generateJsonFeed store lat lon radiusMeters).count
      = (List.foldl (regionStep lat lon rEff) ⟨0, 0, 0, 0⟩ store).count := rfl
  have hmnr : (generateJsonFeed store lat lon radiusMeters).usv_min
      = (List.foldl (regionStep lat lon rEff) ⟨0, 0, 0, 0⟩ store).mn := rfl
  have hmxr : (generateJsonFeed store lat lon radiusMeters).usv_max
      = (List.foldl (regionStep lat lon rEff) ⟨0, 0, 0, 0⟩ store).mx := rfl
  have havg : (generateJsonFeed store lat lon radiusMeters).usv_avg
      = (if (List.foldl (regionStep lat lon rEff) ⟨0, 0, 0, 0⟩ store).count > 0
        then (List.foldl (regionStep lat lon rEff) ⟨0, 0, 0, 0⟩ store).sum
          / (List.foldl (regionStep lat lon rEff) ⟨0, 0, 0, 0⟩ store).count
        else 0) := rfl
  obtain ⟨hsc, hss, hse, hsne⟩ := regionFold_spec lat lon rEff store
  refine ⟨?_, ?_, ?_, ?_, ?_⟩
  · intro kv
    simp [includedRecords, List.mem_filter]
  · intro h0
    rw [hrEff, if_neg h0]
  · rw [hcnt]
    exact hsc
  · intro hE
    have hlen : ((includedRecords store lat lon rEff).length : ℝ) = 0 := by
      rw [hE]
      simp
    refine ⟨?_, ?_, ?_, ?_⟩
    · rw [hcnt, hsc, hlen]
    · rw [hmnr]
      exact (hse hE).1
    · rw [hmxr]
      exact (hse hE).2
    · rw [havg, if_neg ?_]
      rw [hsc, hlen]
      exact lt_irrefl 0
  · intro hNE
    obtain ⟨hmnmem, hmxmem, hbounds⟩ := hsne hNE
    have hpos : (0 : ℝ)
        < ((includedRecords store lat lon rEff).length : ℝ) := by
      exact_mod_cast Nat.pos_of_ne_zero
        (fun h0 => hNE (List.length_eq_zero.mp h0))
    refine ⟨?_, ?_, ?_, ?_⟩
    · rw [hmnr]
      exact hmnmem
    · rw [hmxr]
      exact hmxmem
    · intro u hu
      rw [hmnr, hmxr]
      exact hbounds u hu
    · rw [havg, if_pos ?_, hss, hcnt, hsc]
      rw [hsc]
      exact hpos

/-- C3 witness: the aggregator at the empty store and query (1, 2) with
radius 5 reports the supplied radius and all-zero statistics with no
division. -/
theorem generateJsonFeed_spec_witness :
    (generateJsonFeed [] 1 2 5).radius_meters = 5 ∧
      (generateJsonFeed [] 1 2 5).count = 0 ∧
      (generateJsonFeed [] 1 2 5).usv_min = 0 ∧
      (generateJsonFeed [] 1 2 5).usv_max = 0 ∧
      (generateJsonFeed [] 1 2 5).usv_avg = 0 :=
  ⟨(generateJsonFeed_spec [] 1 2 5).2.1 (by norm_num),
   ((generateJsonFeed_spec [] 1 2 5).2.2.2.1 rfl).1,
   ((generateJsonFeed_spec [] 1 2 5).2.2.2.1 rfl).2.1,
   ((generateJsonFeed_spec [] 1 2 5).2.2.2.1 rfl).2.2.1,
   ((generateJsonFeed_spec [] 1 2 5).2.2.2.1 rfl).2.2.2⟩
